import Mathlib

/-!
Verification development for a messenger data-access layer backed by a
wide-column store.  The Python model layer (`cassandra_models.py`), the two
controllers and the storage client are embedded shallowly: each table is a
list of rows, timeuuids are their 60-bit tick counts (100-nanosecond
intervals since 1582-10-15), fresh uuids and the clock are explicit inputs,
and storage failures are driven by an explicit oracle so that the
`try/except` structure of the Python code becomes total case analysis.
-/

namespace Messenger

/-- A row of the `conversation_by_users` table: partition key
`(user_a_id, user_b_id)` (the normalized low/high pair), payload the
conversation uuid. -/
structure PairRow where
  user_a_id : Int
  user_b_id : Int
  conversation_id : Nat
deriving Repr, DecidableEq

/-- A row of the `messages_by_conversation` table.  `message_time` is the
timeuuid's tick count, which is the clustering sort key (descending). -/
structure MessageRow where
  conversation_id : Nat
  message_time : Nat
  message_id : Nat
  sender_id : Int
  receiver_id : Int
  content : List Char
deriving Repr, DecidableEq

/-- A row of the `conversations_by_user` table (the per-user conversation
index written by the dual upsert in `create_message`). -/
structure ConvIndexRow where
  user_id : Int
  last_message_time : Nat
  conversation_id : Nat
  other_user_id : Int
  last_message_sender_id : Int
  last_message_content : List Char
deriving Repr, DecidableEq

/-- The whole store: the three tables used by `cassandra_models.py`. -/
structure Store where
  conversation_by_users : List PairRow
  messages_by_conversation : List MessageRow
  conversations_by_user : List ConvIndexRow
deriving Repr, DecidableEq

/-- The number of 100-nanosecond intervals between the uuid epoch
(1582-10-15) and the Unix epoch (1970-01-01): `0x01b21dd213814000`. -/
def uuidEpochOffsetTicks : Nat := 122192928000000000

/-- `cassandra.util.uuid_from_time` applied to an instant given in
microseconds since the Unix epoch: the embedded 60-bit timestamp is
`microseconds * 10 + 0x01b21dd213814000` ticks. -/
def uuid_from_time (us : Nat) : Nat := us * 10 + uuidEpochOffsetTicks

/-- The `created_at` value computed by the read paths:
`datetime.utcfromtimestamp(uuid.UUID(...).time / 1e9)`, i.e. the tick count
divided by `10^9`, read as seconds since the Unix epoch. -/
def displayed_created_at (ticks : Nat) : ℚ := (ticks : ℚ) / 1000000000

/-- The instant actually embedded in a timeuuid built by `uuid_from_time`,
in seconds since the Unix epoch, for a write clock of `us` microseconds. -/
def embedded_instant_seconds (us : Nat) : ℚ := (us : ℚ) / 1000000

/-- Exceptions that reach a `try/except` block in the model layer. -/
inductive PyError where
  | valueError
  | storageError
deriving Repr, DecidableEq

/-- The `SELECT conversation_id FROM conversation_by_users WHERE user_a_id =
%s AND user_b_id = %s LIMIT 1` point read: first matching row, if any. -/
def lookupPair (table : List PairRow) (a b : Int) : Option Nat :=
  (table.find? (fun r => r.user_a_id == a && r.user_b_id == b)).map
    (fun r => r.conversation_id)

/-- `MessageModel._get_or_create_conversation_id`.  `fails` is the storage
oracle (call `k` raises when `fails k` is true), `k` the index of the next
storage call, `freshConv` the uuid `uuid.uuid4()` would produce.  Raising is
modelled by `Except.error` carrying the exception and the store at raise
time; success returns the conversation id, the next call index and the
store. -/
def get_or_create_conversation_id (fails : Nat → Bool) (k : Nat)
    (freshConv : Nat) (s : Store) (user1_id user2_id : Int) :
    Except (PyError × Store) (Nat × Nat × Store) :=
  if user1_id = user2_id then .error (.valueError, s)
  else
    let user_a_id := min user1_id user2_id
    let user_b_id := max user1_id user2_id
    if fails k then .error (.storageError, s)
    else
      match lookupPair s.conversation_by_users user_a_id user_b_id with
      | some cid => .ok (cid, k + 1, s)
      | none =>
          if fails (k + 1) then .error (.storageError, s)
          else .ok (freshConv, k + 2,
            { s with conversation_by_users :=
                s.conversation_by_users ++ [⟨user_a_id, user_b_id, freshConv⟩] })

/-- `ConversationModel.create_or_get_conversation`: delegates to the helper
and converts any exception into `None`, leaving the store as it was at raise
time. -/
def create_or_get_conversation (fails : Nat → Bool) (freshConv : Nat)
    (s : Store) (user1_id user2_id : Int) : Option Nat × Store :=
  match get_or_create_conversation_id fails 0 freshConv s user1_id user2_id with
  | .ok (cid, _, s1) => (some cid, s1)
  | .error (_, s1) => (none, s1)

/-- Clustered insert into `messages_by_conversation`: rows are kept in
descending `message_time` order, which is the table's clustering order. -/
def insertMessageDesc (m : MessageRow) : List MessageRow → List MessageRow
  | [] => [m]
  | x :: xs =>
      if x.message_time ≤ m.message_time then m :: x :: xs
      else x :: insertMessageDesc m xs

/-- The `conversations_by_user` row written by one of the two index upserts
of `create_message`: owner `user`, counterpart `other`, last-message sender
`sender`, timestamp `mt`, conversation `cid`, and the content snippet
`content[:200]`. -/
def index_row (user other sender : Int) (mt cid : Nat)
    (content : List Char) : ConvIndexRow :=
  ⟨user, mt, cid, other, sender, content.take 200⟩

/-- `MessageModel.create_message`.  Explicit inputs: storage oracle `fails`
(the calls of one invocation are numbered in order), the uuids `uuid4()`
would produce for a new conversation and for the message, and the clock
`nowUs` (microseconds since the Unix epoch, the `datetime.utcnow()` value
fed to `uuid_from_time`).  The body's `try/except` returns
`(None, None, None)` on any exception, keeping whatever writes had already
been issued. -/
def create_message (fails : Nat → Bool) (freshConv freshMsg : Nat)
    (nowUs : Nat) (s : Store) (sender_id receiver_id : Int)
    (content : List Char) :
    (Option Nat × Option Nat × Option Nat) × Store :=
  match get_or_create_conversation_id fails 0 freshConv s sender_id receiver_id with
  | .error (_, s1) => ((none, none, none), s1)
  | .ok (conversation_id, k, s1) =>
      let message_time := uuid_from_time nowUs
      let message_id := freshMsg
      if fails k then ((none, none, none), s1)
      else
        let row : MessageRow :=
          ⟨conversation_id, message_time, message_id, sender_id, receiver_id, content⟩
        let msgs2 := insertMessageDesc row s1.messages_by_conversation
        let s2 := { s1 with messages_by_conversation := msgs2 }
        if fails (k + 1) then ((none, none, none), s2)
        else
          let senderRow :=
            index_row sender_id receiver_id sender_id message_time conversation_id content
          let s3 := { s2 with conversations_by_user := s2.conversations_by_user ++ [senderRow] }
          if fails (k + 2) then ((none, none, none), s3)
          else
            let receiverRow :=
              index_row receiver_id sender_id sender_id message_time conversation_id content
            let s4 := { s3 with conversations_by_user := s3.conversations_by_user ++ [receiverRow] }
            ((some conversation_id, some message_time, some message_id), s4)

/-- The row sequence denoted by `SELECT ... FROM messages_by_conversation
WHERE conversation_id = %s`: the partition's rows in stored (clustering)
order. -/
def query_messages_by_conversation (s : Store) (conversation_id : Nat) :
    List MessageRow :=
  s.messages_by_conversation.filter (fun m => m.conversation_id == conversation_id)

/-- The row sequence denoted by the same query with the extra restriction
`AND message_time < %s` against a cutoff timeuuid. -/
def query_messages_before (s : Store) (conversation_id beforeTicks : Nat) :
    List MessageRow :=
  s.messages_by_conversation.filter
    (fun m => m.conversation_id == conversation_id &&
      decide (m.message_time < beforeTicks))

/-- A message row as shaped by the read loop: the raw row plus the
`created_at` value derived from the timeuuid and the `id` alias of
`message_id`. -/
structure MessageOut where
  row : MessageRow
  created_at : ℚ
  id : Nat
deriving Repr, DecidableEq

/-- The per-row enrichment performed by both message read paths. -/
def enrich (m : MessageRow) : MessageOut :=
  ⟨m, displayed_created_at m.message_time, m.message_id⟩

/-- Driver paging over a full query result: `start` rows were already
consumed (the opaque paging state), a page of `page_size` rows is returned
together with the next paging state, `none` when the result is exhausted.
A non-positive `fetch_size` disables paging (the driver fetches
everything). -/
def pageWindow (page_size : Int) (start : Nat) (l : List α) :
    List α × Option Nat :=
  if page_size ≤ 0 then (l.drop start, none)
  else
    ((l.drop start).take page_size.toNat,
      if start + page_size.toNat < l.length then some (start + page_size.toNat)
      else none)

/-- `MessageModel.get_conversation_messages`: on a storage error the
`except` branch returns `([], None)`; otherwise one driver page of the
partition scan, each row enriched. -/
def get_conversation_messages (fail : Bool) (s : Store) (conversation_id : Nat)
    (page_size : Int) (paging_state : Option Nat) :
    List MessageOut × Option Nat :=
  if fail then ([], none)
  else
    let res := pageWindow page_size (paging_state.getD 0)
      (query_messages_by_conversation s conversation_id)
    (res.1.map enrich, res.2)

/-- `MessageModel.get_messages_before_timestamp`: builds the cutoff
timeuuid with `uuid_from_time`, then pages the restricted scan; the
`except` branch again returns `([], None)`. -/
def get_messages_before_timestamp (fail : Bool) (s : Store)
    (conversation_id : Nat) (beforeUs : Nat) (page_size : Int)
    (paging_state : Option Nat) : List MessageOut × Option Nat :=
  if fail then ([], none)
  else
    let before_timeuuid := uuid_from_time beforeUs
    let res := pageWindow page_size (paging_state.getD 0)
      (query_messages_before s conversation_id before_timeuuid)
    (res.1.map enrich, res.2)

/-- The row sequence denoted by `SELECT ... FROM conversations_by_user
WHERE user_id = %s`: the user's partition in stored (clustering) order. -/
def query_conversations_for_user (s : Store) (user_id : Int) :
    List ConvIndexRow :=
  s.conversations_by_user.filter (fun r => r.user_id == user_id)

/-- A conversation summary as shaped by
`ConversationModel.get_user_conversations`. -/
structure ConvSummary where
  id : Nat
  user1_id : Int
  user2_id : Int
  last_message_at : ℚ
  last_message_content : List Char
deriving Repr, DecidableEq

/-- The per-row shaping of `get_user_conversations` (including the same
timeuuid-to-`datetime` conversion the message reads use). -/
def format_conversation (user_id : Int) (r : ConvIndexRow) : ConvSummary :=
  ⟨r.conversation_id, user_id, r.other_user_id,
    displayed_created_at r.last_message_time, r.last_message_content⟩

/-- `ConversationModel.get_user_conversations`: one driver page of the
per-user index scan; the `except` branch returns `([], None)` on a storage
error. -/
def get_user_conversations (fail : Bool) (s : Store) (user_id : Int)
    (page_size : Int) (paging_state : Option Nat) :
    List ConvSummary × Option Nat :=
  if fail then ([], none)
  else
    let res := pageWindow page_size (paging_state.getD 0)
      (query_conversations_for_user s user_id)
    (res.1.map (format_conversation user_id), res.2)

/-- `ConversationModel.get_conversation`: the schema cannot serve a
conversation-by-id lookup, so the method only logs a warning and returns
`None`, for any store and any id. -/
def get_conversation (_s : Store) (_conversation_id : Nat) :
    Option ConvSummary :=
  none

/-- `ConversationController.get_user_conversations`: clamps a non-positive
`limit` to 20, always passes `paging_state=None` to the model, and wraps
the first page in a response echoing `page` and the effective limit, with
total `-1` (unknown). -/
def controller_get_user_conversations (fail : Bool) (s : Store)
    (user_id : Int) (page limit : Int) :
    Int × Int × Int × List ConvSummary :=
  let limit := if limit ≤ 0 then 20 else limit
  let res := get_user_conversations fail s user_id limit none
  (-1, page, limit, res.1)

/-- `ConversationController.get_conversation`: queries the model, and since
the model always returns `None`, raises a 404 HTTPException (re-raised
unchanged by the outer handler). -/
def controller_get_conversation (s : Store) (conversation_id : Nat) :
    Except Nat ConvSummary :=
  match get_conversation s conversation_id with
  | none => .error 404
  | some c => .ok c

/-- A row of the message table as read by `MessageController` (this
controller runs its own statements against a schema with `recipient_id`,
`message_text` and a plain `timestamp` column). -/
structure CtrlMessageRow where
  conversation_id : Nat
  message_id : Nat
  sender_id : Int
  recipient_id : Int
  message_text : List Char
  timestamp : Nat
deriving Repr, DecidableEq

/-- CQL `LIMIT n` semantics: the limit must be strictly positive, otherwise
the statement is rejected (an `InvalidRequest` exception); a valid limit
truncates the result sequence. -/
def cql_limit (n : Int) (l : List α) : Except Unit (List α) :=
  if n ≤ 0 then .error () else .ok (l.take n.toNat)

/-- Python's `l[start:]` slice. -/
def py_slice_from (start : Int) (l : List α) : List α :=
  if 0 ≤ start then l.drop start.toNat
  else l.drop (l.length - (-start).toNat)

/-- The body of `PaginatedMessageResponse`: rows, echoed page, echoed
limit. -/
structure PaginatedMessages where
  messages : List CtrlMessageRow
  page : Int
  limit : Int
deriving Repr, DecidableEq

/-- `MessageController.get_conversation_messages`: offset pagination by
over-fetching `LIMIT offset+limit` rows and slicing `[offset:]`; any
storage exception (in particular a rejected non-positive `LIMIT`) is
mapped to an HTTP 500. -/
def mc_get_conversation_messages (table : List CtrlMessageRow)
    (conversation_id : Nat) (page limit : Int) :
    Except Nat PaginatedMessages :=
  let offset := (page - 1) * limit
  match cql_limit (offset + limit)
      (table.filter (fun r => r.conversation_id == conversation_id)) with
  | .error _ => .error 500
  | .ok rows => .ok ⟨py_slice_from offset rows, page, limit⟩

end Messenger

namespace Messenger

/-- C1: with the two participant ids swapped, the resolver runs on the same
normalized `(min, max)` key, so its entire outcome (id, store, even the
failure behaviour) is unchanged. -/
theorem resolve_order_independent (fails : Nat → Bool) (k freshConv : Nat)
    (s : Store) (a b : Int) (hab : a ≠ b) :
    get_or_create_conversation_id fails k freshConv s a b =
      get_or_create_conversation_id fails k freshConv s b a := by
  unfold get_or_create_conversation_id
  simp only [if_neg hab, if_neg (Ne.symm hab), min_comm a b, max_comm a b]

/-- Witness for `resolve_order_independent` at a concrete input. -/
theorem resolve_order_independent_witness :
    (1 : Int) ≠ 2 ∧
      get_or_create_conversation_id (fun _ => false) 0 7 ⟨[], [], []⟩ 1 2 =
        get_or_create_conversation_id (fun _ => false) 0 7 ⟨[], [], []⟩ 2 1 :=
  ⟨by decide, resolve_order_independent (fun _ => false) 0 7 ⟨[], [], []⟩ 1 2 (by decide)⟩

/-- C2: resolving a conversation of a user with themself raises
`ValueError` before any storage call, so the store is returned untouched,
and the catching wrapper `create_or_get_conversation` yields `None` with
the store unchanged. -/
theorem resolve_self_fails (fails : Nat → Bool) (k freshConv : Nat)
    (s : Store) (a : Int) :
    get_or_create_conversation_id fails k freshConv s a a =
        .error (.valueError, s) ∧
      create_or_get_conversation fails freshConv s a a = (none, s) := by
  constructor
  · unfold get_or_create_conversation_id
    simp
  · unfold create_or_get_conversation get_or_create_conversation_id
    simp

/-- Helper: a successful identity resolution never touches the message
table or the per-user conversation index. -/
theorem get_or_create_ok_tables (fails : Nat → Bool) (k freshConv : Nat)
    (s : Store) (a b : Int) (c k' : Nat) (s1 : Store)
    (h : get_or_create_conversation_id fails k freshConv s a b = .ok (c, k', s1)) :
    s1.messages_by_conversation = s.messages_by_conversation ∧
      s1.conversations_by_user = s.conversations_by_user := by
  unfold get_or_create_conversation_id at h
  by_cases hab : a = b
  · simp [hab] at h
  · rw [if_neg hab] at h
    by_cases hf : fails k = true
    · simp [hf] at h
    · rw [if_neg hf] at h
      cases hl : lookupPair s.conversation_by_users (min a b) (max a b) with
      | some cid =>
          rw [hl] at h
          simp at h
          rw [← h.2.2]
          exact ⟨rfl, rfl⟩
      | none =>
          rw [hl] at h
          by_cases hf2 : fails (k + 1) = true
          · simp [hf2] at h
          · simp [hf2] at h
            rw [← h.2.2]
            exact ⟨rfl, rfl⟩

/-- C3: a successful `create_message` appends exactly two
`conversations_by_user` rows, one owned by the sender and one by the
receiver, carrying the same last-message timestamp, the same last-message
sender (the sender) and the same snippet `content[:200]`; the snippet
equals the content when it has at most 200 characters and is cut to
exactly 200 characters otherwise (truncation is total, never an error). -/
theorem send_index_upserts_agree (fails : Nat → Bool)
    (freshConv freshMsg nowUs : Nat) (s : Store) (sender_id receiver_id : Int)
    (content : List Char) (cid mt mid : Nat) (s2 : Store)
    (h : create_message fails freshConv freshMsg nowUs s sender_id receiver_id content
          = ((some cid, some mt, some mid), s2)) :
    s2.conversations_by_user = s.conversations_by_user ++
        [index_row sender_id receiver_id sender_id mt cid content,
         index_row receiver_id sender_id sender_id mt cid content] ∧
      (index_row sender_id receiver_id sender_id mt cid content).last_message_time = mt ∧
      (index_row receiver_id sender_id sender_id mt cid content).last_message_time = mt ∧
      (index_row sender_id receiver_id sender_id mt cid content).last_message_sender_id
        = sender_id ∧
      (index_row receiver_id sender_id sender_id mt cid content).last_message_sender_id
        = sender_id ∧
      (index_row sender_id receiver_id sender_id mt cid content).last_message_content
        = (index_row receiver_id sender_id sender_id mt cid content).last_message_content ∧
      (content.length ≤ 200 →
        (index_row sender_id receiver_id sender_id mt cid content).last_message_content
          = content) ∧
      (200 < content.length →
        (index_row sender_id receiver_id sender_id mt cid content).last_message_content
            = content.take 200 ∧
          ((index_row sender_id receiver_id sender_id mt cid content).last_message_content).length
            = 200) := by
  unfold create_message at h
  cases hcg : get_or_create_conversation_id fails 0 freshConv s sender_id receiver_id with
  | error e => rw [hcg] at h; simp at h
  | ok v =>
      obtain ⟨c, k, s1⟩ := v
      rw [hcg] at h
      simp only at h
      by_cases h1 : fails k = true
      · simp [h1] at h
      · by_cases h2 : fails (k + 1) = true
        · simp [h1, h2] at h
        · by_cases h3 : fails (k + 2) = true
          · simp [h1, h2, h3] at h
          · simp only [h1, h2, h3, if_neg, Bool.false_eq_true, if_false,
              Prod.mk.injEq, Option.some.injEq] at h
            obtain ⟨⟨hc, hmt, hmid⟩, hs⟩ := h
            subst hc hmt hs
            have htab := get_or_create_ok_tables fails 0 freshConv s
              sender_id receiver_id c k s1 hcg
            refine ⟨?_, rfl, rfl, rfl, rfl, rfl, ?_, ?_⟩
            · simp [index_row, htab.2, List.append_assoc]
            · intro hle
              simp [index_row, List.take_of_length_le hle]
            · intro hgt
              refine ⟨rfl, ?_⟩
              simp [index_row, List.length_take]
              omega

/-- Witness for `send_index_upserts_agree` at a concrete successful run. -/
theorem send_index_upserts_agree_witness :
    create_message (fun _ => false) 7 9 1000 ⟨[], [], []⟩ 1 2 ['a', 'b']
        = ((some 7, some 122192928000010000, some 9),
            ⟨[⟨1, 2, 7⟩],
             [⟨7, 122192928000010000, 9, 1, 2, ['a', 'b']⟩],
             [⟨1, 122192928000010000, 7, 2, 1, ['a', 'b']⟩,
              ⟨2, 122192928000010000, 7, 1, 1, ['a', 'b']⟩]⟩) ∧
      (⟨[⟨1, 2, 7⟩],
        [⟨7, 122192928000010000, 9, 1, 2, ['a', 'b']⟩],
        [⟨1, 122192928000010000, 7, 2, 1, ['a', 'b']⟩,
         ⟨2, 122192928000010000, 7, 1, 1, ['a', 'b']⟩]⟩ : Store).conversations_by_user
        = ([] : List ConvIndexRow) ++
            [index_row 1 2 1 122192928000010000 7 ['a', 'b'],
             index_row 2 1 1 122192928000010000 7 ['a', 'b']] :=
  ⟨by decide,
    (send_index_upserts_agree (fun _ => false) 7 9 1000 ⟨[], [], []⟩ 1 2
      ['a', 'b'] 7 122192928000010000 9 _ (by decide)).1⟩

/-- C10: `create_message` is total (the surrounding `try/except` converts
every exception), its result triple is either exactly `(None, None, None)`
or has all three components present, and the self-conversation input always
yields `(None, None, None)` — so any single component being `None` signals
failure. -/
theorem create_message_none_or_all (fails : Nat → Bool)
    (freshConv freshMsg nowUs : Nat) (s : Store) (a b : Int)
    (content : List Char) :
    ((create_message fails freshConv freshMsg nowUs s a b content).1
        = (none, none, none) ∨
      ∃ c t m, (create_message fails freshConv freshMsg nowUs s a b content).1
        = (some c, some t, some m)) ∧
      (a = b →
        (create_message fails freshConv freshMsg nowUs s a b content).1
          = (none, none, none)) := by
  constructor
  · unfold create_message
    cases hcg : get_or_create_conversation_id fails 0 freshConv s a b with
    | error e => simp
    | ok v =>
        obtain ⟨c, k, s1⟩ := v
        simp only
        by_cases h1 : fails k = true
        · simp [h1]
        · by_cases h2 : fails (k + 1) = true
          · simp [h1, h2]
          · by_cases h3 : fails (k + 2) = true
            · simp [h1, h2, h3]
            · simp [h1, h2, h3]
  · intro hab
    unfold create_message get_or_create_conversation_id
    simp [hab]

/-- C4: the before-timestamp scan denotes exactly the by-conversation scan
filtered to rows whose timeuuid is strictly below the cutoff (a row at
exactly the cutoff is excluded), in the same order; both scans are
newest-first when the table respects its clustering order, and the paged
read of `get_messages_before_timestamp` is the driver window over that
filtered sequence. -/
theorem before_timestamp_is_strict_filter (s : Store) (cid beforeUs : Nat)
    (page_size : Int) (pst : Option Nat)
    (hsorted : s.messages_by_conversation.Pairwise
      (fun x y => y.message_time ≤ x.message_time)) :
    query_messages_before s cid (uuid_from_time beforeUs)
        = (query_messages_by_conversation s cid).filter
            (fun m => decide (m.message_time < uuid_from_time beforeUs)) ∧
      (∀ m ∈ query_messages_before s cid (uuid_from_time beforeUs),
        m.message_time < uuid_from_time beforeUs) ∧
      (query_messages_by_conversation s cid).Pairwise
        (fun x y => y.message_time ≤ x.message_time) ∧
      (query_messages_before s cid (uuid_from_time beforeUs)).Pairwise
        (fun x y => y.message_time ≤ x.message_time) ∧
      get_messages_before_timestamp false s cid beforeUs page_size pst
        = ((pageWindow page_size (pst.getD 0)
              ((query_messages_by_conversation s cid).filter
                (fun m => decide (m.message_time < uuid_from_time beforeUs)))).1.map
            enrich,
           (pageWindow page_size (pst.getD 0)
              ((query_messages_by_conversation s cid).filter
                (fun m => decide (m.message_time < uuid_from_time beforeUs)))).2) := by
  have hfe : query_messages_before s cid (uuid_from_time beforeUs)
      = (query_messages_by_conversation s cid).filter
          (fun m => decide (m.message_time < uuid_from_time beforeUs)) := by
    unfold query_messages_before query_messages_by_conversation
    rw [List.filter_filter]
    exact List.filter_congr (fun m _ => by rw [Bool.and_comm])
  refine ⟨hfe, ?_, ?_, ?_, ?_⟩
  · intro m hm
    unfold query_messages_before at hm
    simp [List.mem_filter] at hm
    exact hm.2.2
  · exact List.Pairwise.sublist (List.filter_sublist _) hsorted
  · exact List.Pairwise.sublist (List.filter_sublist _) hsorted
  · unfold get_messages_before_timestamp
    simp [hfe]

/-- Witness store for `before_timestamp_is_strict_filter`: conversation 5
holds messages written at microseconds 3, 2, 1 (newest first), plus an
unrelated conversation 6. -/
def c4Store : Store :=
  ⟨[],
   [⟨5, uuid_from_time 3, 101, 1, 2, ['c']⟩,
    ⟨5, uuid_from_time 2, 102, 2, 1, ['b']⟩,
    ⟨6, uuid_from_time 2, 104, 3, 4, ['z']⟩,
    ⟨5, uuid_from_time 1, 103, 1, 2, ['a']⟩],
   []⟩

/-- Witness for `before_timestamp_is_strict_filter`: the cutoff is the
write instant of message 102, which is excluded. -/
theorem before_timestamp_is_strict_filter_witness :
    c4Store.messages_by_conversation.Pairwise
        (fun x y => y.message_time ≤ x.message_time) ∧
      (query_messages_before c4Store 5 (uuid_from_time 2)
          = (query_messages_by_conversation c4Store 5).filter
              (fun m => decide (m.message_time < uuid_from_time 2)) ∧
        (∀ m ∈ query_messages_before c4Store 5 (uuid_from_time 2),
          m.message_time < uuid_from_time 2) ∧
        (query_messages_by_conversation c4Store 5).Pairwise
          (fun x y => y.message_time ≤ x.message_time) ∧
        (query_messages_before c4Store 5 (uuid_from_time 2)).Pairwise
          (fun x y => y.message_time ≤ x.message_time) ∧
        get_messages_before_timestamp false c4Store 5 2 20 none
          = ((pageWindow 20 ((none : Option Nat).getD 0)
                ((query_messages_by_conversation c4Store 5).filter
                  (fun m => decide (m.message_time < uuid_from_time 2)))).1.map
              enrich,
             (pageWindow 20 ((none : Option Nat).getD 0)
                ((query_messages_by_conversation c4Store 5).filter
                  (fun m => decide (m.message_time < uuid_from_time 2)))).2)) :=
  ⟨by decide, before_timestamp_is_strict_filter c4Store 5 2 20 none (by decide)⟩

/-- Store holding the result of one successful send at Unix microsecond
1600000000000000 (2020-09-13T12:26:40Z). -/
def c5Store : Store :=
  (create_message (fun _ => false) 7 9 1600000000000000 ⟨[], [], []⟩ 1 2
    ['h', 'i']).2

/-- C5 (code bug): the embedded write instant of the demo message is the
Unix second 1600000000, but the read path divides the 100ns-since-1582
tick count by `1e9`, so the `created_at` it reports is the Unix second
138192928 (in 1974) — not the instant embedded in the identifier. -/
theorem created_at_misconverts_embedded_instant :
    embedded_instant_seconds 1600000000000000 = (1600000000 : ℚ) ∧
      displayed_created_at (uuid_from_time 1600000000000000) = (138192928 : ℚ) ∧
      (get_conversation_messages false c5Store 7 20 none).1.map
          (fun m => m.created_at)
        = [displayed_created_at (uuid_from_time 1600000000000000)] ∧
      displayed_created_at (uuid_from_time 1600000000000000)
        ≠ embedded_instant_seconds 1600000000000000 := by
  refine ⟨?_, ?_, ?_, ?_⟩
  · norm_num [embedded_instant_seconds]
  · norm_num [displayed_created_at, uuid_from_time, uuidEpochOffsetTicks]
  · rfl
  · norm_num [displayed_created_at, embedded_instant_seconds, uuid_from_time,
      uuidEpochOffsetTicks]

/-- Store with one stored message in conversation 5, used to exhibit the
storage-error read behaviour. -/
def c6Store : Store :=
  ⟨[], [⟨5, uuid_from_time 1, 101, 1, 2, ['x']⟩], []⟩

/-- C6 counterexample: a storage error during `get_conversation_messages`
on a non-empty conversation produces `([], None)` — the very same value a
successful read of an empty store produces, i.e. a normal-looking success,
not an error result. -/
theorem storage_error_read_looks_like_success :
    get_conversation_messages true c6Store 5 20 none = ([], none) ∧
      get_conversation_messages false ⟨[], [], []⟩ 5 20 none = ([], none) := by
  exact ⟨rfl, rfl⟩

/-- C6 amended: storage errors never escape as exceptions, but only
`create_message` reports them distinguishably (the all-`None` sentinel,
with the writes already issued kept — no rollback: failing only the final
receiver upsert leaves the message row and the sender's index row in
place); the three reads swallow the error into an empty page `([], None)`
indistinguishable from an empty result. -/
theorem storage_errors_swallowed (s : Store) (cid beforeUs : Nat)
    (user : Int) (page_size : Int) (pst : Option Nat)
    (freshConv freshMsg nowUs : Nat) (a b : Int) (content : List Char)
    (c : Nat)
    (h1 : lookupPair s.conversation_by_users (min a b) (max a b) = some c)
    (h2 : a ≠ b) :
    get_conversation_messages true s cid page_size pst = ([], none) ∧
      get_messages_before_timestamp true s cid beforeUs page_size pst
        = ([], none) ∧
      get_user_conversations true s user page_size pst = ([], none) ∧
      create_message (fun _ => true) freshConv freshMsg nowUs s a b content
        = ((none, none, none), s) ∧
      create_message (fun k => k == 3) freshConv freshMsg nowUs s a b content
        = ((none, none, none),
           ⟨s.conversation_by_users,
            insertMessageDesc ⟨c, uuid_from_time nowUs, freshMsg, a, b, content⟩
              s.messages_by_conversation,
            s.conversations_by_user ++
              [index_row a b a (uuid_from_time nowUs) c content]⟩) := by
  refine ⟨rfl, rfl, rfl, ?_, ?_⟩
  · unfold create_message get_or_create_conversation_id
    simp [h2]
  · unfold create_message get_or_create_conversation_id
    simp [h2, h1]

/-- Witness for `storage_errors_swallowed` on a store already holding the
pair mapping (1,2) ↦ 5. -/
theorem storage_errors_swallowed_witness :
    lookupPair (Store.mk [⟨1, 2, 5⟩] [] []).conversation_by_users
        (min 1 2) (max 1 2) = some 5 ∧
      (1 : Int) ≠ 2 ∧
      (get_conversation_messages true ⟨[⟨1, 2, 5⟩], [], []⟩ 5 20 none
          = ([], none) ∧
        get_messages_before_timestamp true ⟨[⟨1, 2, 5⟩], [], []⟩ 5 4 20 none
          = ([], none) ∧
        get_user_conversations true ⟨[⟨1, 2, 5⟩], [], []⟩ 1 20 none
          = ([], none) ∧
        create_message (fun _ => true) 7 9 3 ⟨[⟨1, 2, 5⟩], [], []⟩ 1 2 ['x']
          = ((none, none, none), ⟨[⟨1, 2, 5⟩], [], []⟩) ∧
        create_message (fun k => k == 3) 7 9 3 ⟨[⟨1, 2, 5⟩], [], []⟩ 1 2 ['x']
          = ((none, none, none),
             ⟨(Store.mk [⟨1, 2, 5⟩] [] []).conversation_by_users,
              insertMessageDesc ⟨5, uuid_from_time 3, 9, 1, 2, ['x']⟩
                (Store.mk [⟨1, 2, 5⟩] [] []).messages_by_conversation,
              (Store.mk [⟨1, 2, 5⟩] [] []).conversations_by_user ++
                [index_row 1 2 1 (uuid_from_time 3) 5 ['x']]⟩)) :=
  ⟨by decide, by decide,
    storage_errors_swallowed ⟨[⟨1, 2, 5⟩], [], []⟩ 5 4 1 20 none 7 9 3 1 2
      ['x'] 5 (by decide) (by decide)⟩

/-- A one-row table for the message controller. -/
def c7Table : List CtrlMessageRow := [⟨5, 100, 1, 2, ['x'], 10⟩]

/-- C7 counterexample: the message controller does not clamp a non-positive
page size — with `limit = 0` its `LIMIT 0` statement is rejected and the
request fails with HTTP 500 instead of proceeding with the default 20. -/
theorem nonpositive_limit_rejected_by_message_reads :
    mc_get_conversation_messages c7Table 5 1 0 = .error 500 := rfl

/-- C7 amended: only the conversation-listing controller silently clamps a
non-positive page size to 20 and proceeds; the message-reading controller
passes the raw value into its `LIMIT` clause, so every non-positive page
size there is rejected as an internal error. -/
theorem nonpositive_limit_clamped_only_for_conversations (fail : Bool)
    (s : Store) (user : Int) (page limit : Int)
    (table : List CtrlMessageRow) (cid : Nat)
    (hlim : limit ≤ 0) (hpage : 1 ≤ page) :
    controller_get_user_conversations fail s user page limit
        = controller_get_user_conversations fail s user page 20 ∧
      (controller_get_user_conversations fail s user page limit).2.2.1 = 20 ∧
      mc_get_conversation_messages table cid page limit = .error 500 := by
  refine ⟨?_, ?_, ?_⟩
  · unfold controller_get_user_conversations
    rw [if_pos hlim, if_neg (by norm_num)]
  · unfold controller_get_user_conversations
    rw [if_pos hlim]
  · unfold mc_get_conversation_messages
    dsimp only
    have heq : (page - 1) * limit + limit = page * limit := by ring
    have hnp : page * limit ≤ 0 := by nlinarith
    rw [heq]
    unfold cql_limit
    rw [if_pos hnp]

/-- Witness for `nonpositive_limit_clamped_only_for_conversations`. -/
theorem nonpositive_limit_clamped_only_for_conversations_witness :
    (0 : Int) ≤ 0 ∧ (1 : Int) ≤ 1 ∧
      (controller_get_user_conversations false ⟨[], [], []⟩ 1 1 0
          = controller_get_user_conversations false ⟨[], [], []⟩ 1 1 20 ∧
        (controller_get_user_conversations false ⟨[], [], []⟩ 1 1 0).2.2.1 = 20 ∧
        mc_get_conversation_messages c7Table 5 1 0 = .error 500) :=
  ⟨by decide, by decide,
    nonpositive_limit_clamped_only_for_conversations false ⟨[], [], []⟩ 1 1 0
      c7Table 5 (by decide) (by decide)⟩

/-- A two-row table (newest first) for the message controller. -/
def c8Table : List CtrlMessageRow :=
  [⟨5, 100, 1, 2, ['a'], 10⟩, ⟨5, 101, 2, 1, ['b'], 9⟩]

/-- C8 counterexample: the message controller accepts page 2 without error
but returns a different row than page 1 — the page index is offset
pagination there, not ignored. -/
theorem page_index_not_ignored_by_message_reads :
    mc_get_conversation_messages c8Table 5 2 1
        = .ok ⟨[⟨5, 101, 2, 1, ['b'], 9⟩], 2, 1⟩ ∧
      mc_get_conversation_messages c8Table 5 1 1
        = .ok ⟨[⟨5, 100, 1, 2, ['a'], 10⟩], 1, 1⟩ ∧
      ([⟨5, 101, 2, 1, ['b'], 9⟩] : List CtrlMessageRow)
        ≠ [⟨5, 100, 1, 2, ['a'], 10⟩] :=
  ⟨rfl, rfl, by decide⟩

/-- C8 amended: the conversation-listing controller indeed ignores the page
index (its limit and data are the same for any page number, always the
first page); the message-reading controller instead implements offset
pagination — page N over-fetches `N * limit` rows and slices off the first
`(N - 1) * limit`. -/
theorem page_index_semantics (fail : Bool) (s : Store) (user : Int)
    (page page' limit : Int) (table : List CtrlMessageRow) (cid : Nat)
    (hp : 1 ≤ page) (hl : 1 ≤ limit) :
    (controller_get_user_conversations fail s user page limit).2.2
        = (controller_get_user_conversations fail s user page' limit).2.2 ∧
      mc_get_conversation_messages table cid page limit
        = .ok ⟨((table.filter (fun r => r.conversation_id == cid)).take
                (page * limit).toNat).drop (((page - 1) * limit).toNat),
              page, limit⟩ := by
  constructor
  · rfl
  · unfold mc_get_conversation_messages
    dsimp only
    have heq : (page - 1) * limit + limit = page * limit := by ring
    have hpos : 0 < page * limit := mul_pos (by linarith) (by linarith)
    have hoff : 0 ≤ (page - 1) * limit := mul_nonneg (by linarith) (by linarith)
    rw [heq]
    unfold cql_limit
    rw [if_neg (not_le.mpr hpos)]
    simp [py_slice_from, hoff]

/-- Witness for `page_index_semantics` at page 2, limit 1. -/
theorem page_index_semantics_witness :
    (1 : Int) ≤ 2 ∧ (1 : Int) ≤ 1 ∧
      ((controller_get_user_conversations false ⟨[], [], []⟩ 1 2 1).2.2
          = (controller_get_user_conversations false ⟨[], [], []⟩ 1 9 1).2.2 ∧
        mc_get_conversation_messages c8Table 5 2 1
          = .ok ⟨((c8Table.filter (fun r => r.conversation_id == 5)).take
                  ((2 : Int) * 1).toNat).drop ((((2 : Int) - 1) * 1).toNat),
                2, 1⟩) :=
  ⟨by decide, by decide,
    page_index_semantics false ⟨[], [], []⟩ 1 2 9 1 c8Table 5 (by decide)
      (by decide)⟩

/-- C9: the conversation-by-id lookup is structurally unsupported: the
model returns `None` for every store and id (independent of the store, so
no scan can be involved), and the controller maps this to a 404. -/
theorem conversation_by_id_unsupported (s s2 : Store)
    (conversation_id : Nat) :
    get_conversation s conversation_id = none ∧
      get_conversation s conversation_id = get_conversation s2 conversation_id ∧
      controller_get_conversation s conversation_id = .error 404 :=
  ⟨rfl, rfl, rfl⟩

end Messenger
